import Mathlib

/-!
Verification of the Gen-AI Workout Planner (`src/app.py`).

The program is a single Streamlit page: four form inputs are substituted
into a fixed prompt template, the prompt is sent to an external
text-generation service, the returned text is displayed, rendered into a
PDF, and appended to a session history list.

The shallow embedding below mirrors `src/app.py`:
  * `workout_prompt_segs` / `formatSegs` — the `PromptTemplate` (lines 30-38)
    and its `format` semantics (parse once into literal/variable segments,
    substitute named values);
  * `generate_workout` — lines 41-53, with the external
    `model.generate_content` call modelled as an oracle
    `gen : String → GenResult` (success text or raised exception detail);
  * `create_pdf` — lines 56-73, with the FPDF object modelled as the list
    of drawing operations performed on it, and `datetime.now()` as an
    explicit `DateTime` argument;
  * `main_submit` — the submit branch of `main` (lines 111-137);
  * `startup_halts` — the module-initialisation checks (lines 13-27).
-/

namespace WorkoutApp

/-! ### Decimal rendering with zero padding (Python `strftime` field semantics) -/

/-- The decimal digits of `n`, zero-padded to exactly `k` characters,
as produced by the `%Y`/`%m`/`%d`/`%H`/`%M`/`%S` fields of `strftime`. -/
def padNat : Nat → Nat → List Char
  | 0, _ => []
  | k + 1, n => padNat k (n / 10) ++ [Nat.digitChar (n % 10)]

/-- Reading a digit string back into a number, starting from accumulator `a`. -/
def ofDigitsAcc (a : Nat) (l : List Char) : Nat :=
  l.foldl (fun acc c => acc * 10 + (c.toNat - 48)) a

theorem padNat_length (k : Nat) : ∀ n, (padNat k n).length = k := by
  induction k with
  | zero => intro n; rfl
  | succ k ih => intro n; simp [padNat, ih]

theorem digitChar_toNat : ∀ d, d < 10 → (Nat.digitChar d).toNat = 48 + d := by decide

theorem digitChar_isDigit : ∀ d, d < 10 → (Nat.digitChar d).isDigit = true := by decide

theorem padNat_all_isDigit (k : Nat) : ∀ n, ∀ c ∈ padNat k n, c.isDigit = true := by
  induction k with
  | zero => intro n c hc; simp [padNat] at hc
  | succ k ih =>
    intro n c hc
    simp only [padNat, List.mem_append, List.mem_singleton] at hc
    rcases hc with hc | hc
    · exact ih _ c hc
    · subst hc; exact digitChar_isDigit _ (Nat.mod_lt _ (by norm_num))

theorem filter_isDigit_padNat (k n : Nat) :
    (padNat k n).filter Char.isDigit = padNat k n :=
  List.filter_eq_self.mpr (padNat_all_isDigit k n)

theorem ofDigitsAcc_padNat (k : Nat) :
    ∀ a n, n < 10 ^ k → ofDigitsAcc a (padNat k n) = a * 10 ^ k + n := by
  induction k with
  | zero =>
    intro a n hn
    interval_cases n
    simp [ofDigitsAcc, padNat]
  | succ k ih =>
    intro a n hn
    have hdiv : n / 10 < 10 ^ k := by
      rw [Nat.div_lt_iff_lt_mul (by norm_num)]
      calc n < 10 ^ (k + 1) := hn
        _ = 10 ^ k * 10 := by ring
    have hmod : n % 10 < 10 := Nat.mod_lt _ (by norm_num)
    simp only [padNat, ofDigitsAcc, List.foldl_append] at *
    rw [ih a (n / 10) hdiv]
    simp only [List.foldl_cons, List.foldl_nil, digitChar_toNat _ hmod]
    have := Nat.div_add_mod n 10
    have hpow : a * 10 ^ (k + 1) = a * 10 ^ k * 10 := by ring
    omega

/-! ### Timestamps: `datetime.now()` at second resolution -/

/-- A wall-clock time at second resolution, the granularity at which
`datetime.now().strftime` distinguishes calls in `src/app.py`. -/
structure DateTime where
  year : Nat
  month : Nat
  day : Nat
  hour : Nat
  minute : Nat
  second : Nat
deriving DecidableEq, Repr

/-- The field ranges a real `datetime.datetime` value satisfies. -/
def DateTime.Valid (t : DateTime) : Prop :=
  t.year < 10000 ∧ 1 ≤ t.month ∧ t.month ≤ 12 ∧ 1 ≤ t.day ∧ t.day ≤ 31 ∧
    t.hour < 24 ∧ t.minute < 60 ∧ t.second < 60

instance (t : DateTime) : Decidable t.Valid := by
  unfold DateTime.Valid; infer_instance

/-- Characters of `datetime.strftime('%Y%m%d_%H%M%S')` (line 71). -/
def tsChars (t : DateTime) : List Char :=
  padNat 4 t.year ++ padNat 2 t.month ++ padNat 2 t.day ++ ['_'] ++
    padNat 2 t.hour ++ padNat 2 t.minute ++ padNat 2 t.second

/-- `datetime.strftime('%Y%m%d_%H%M%S')` (line 71). -/
def strftime_ts (t : DateTime) : String := ⟨tsChars t⟩

/-- Characters of `datetime.strftime("%Y-%m-%d %H:%M:%S")` (line 123). -/
def dateChars (t : DateTime) : List Char :=
  padNat 4 t.year ++ ['-'] ++ padNat 2 t.month ++ ['-'] ++ padNat 2 t.day ++ [' '] ++
    padNat 2 t.hour ++ [':'] ++ padNat 2 t.minute ++ [':'] ++ padNat 2 t.second

/-- `datetime.strftime("%Y-%m-%d %H:%M:%S")` (line 123). -/
def strftime_date (t : DateTime) : String := ⟨dateChars t⟩

/-- The timestamp read as a single number; used to invert `strftime`. -/
def tsVal (t : DateTime) : Nat :=
  ((((t.year * 100 + t.month) * 100 + t.day) * 100 + t.hour) * 100 + t.minute) * 100
    + t.second

theorem ofDigitsAcc_filter_tsChars (t : DateTime) (h : t.Valid) :
    ofDigitsAcc 0 ((tsChars t).filter Char.isDigit) = tsVal t := by
  obtain ⟨hy, hm1, hm2, hd1, hd2, hh, hmi, hs⟩ := h
  have hy' : t.year < 10 ^ 4 := by norm_num; omega
  have hm' : t.month < 10 ^ 2 := by norm_num; omega
  have hd' : t.day < 10 ^ 2 := by norm_num; omega
  have hh' : t.hour < 10 ^ 2 := by norm_num; omega
  have hmi' : t.minute < 10 ^ 2 := by norm_num; omega
  have hs' : t.second < 10 ^ 2 := by norm_num; omega
  simp only [tsChars, List.filter_append, filter_isDigit_padNat]
  have hu : List.filter Char.isDigit ['_'] = [] := by decide
  rw [hu]
  simp only [List.append_nil, List.nil_append, ofDigitsAcc, List.foldl_append]
  show ofDigitsAcc (ofDigitsAcc (ofDigitsAcc (ofDigitsAcc (ofDigitsAcc
      (ofDigitsAcc 0 (padNat 4 t.year)) (padNat 2 t.month)) (padNat 2 t.day))
      (padNat 2 t.hour)) (padNat 2 t.minute)) (padNat 2 t.second) = tsVal t
  rw [ofDigitsAcc_padNat 4 0 t.year hy', ofDigitsAcc_padNat 2 _ t.month hm',
    ofDigitsAcc_padNat 2 _ t.day hd', ofDigitsAcc_padNat 2 _ t.hour hh',
    ofDigitsAcc_padNat 2 _ t.minute hmi', ofDigitsAcc_padNat 2 _ t.second hs']
  simp only [tsVal]
  ring

theorem tsVal_inj {t t' : DateTime} (h : t.Valid) (h' : t'.Valid)
    (heq : tsVal t = tsVal t') : t = t' := by
  obtain ⟨hy, hm1, hm2, hd1, hd2, hh, hmi, hs⟩ := h
  obtain ⟨hy', hm1', hm2', hd1', hd2', hh', hmi', hs'⟩ := h'
  simp only [tsVal] at heq
  cases t; cases t'
  simp_all only [DateTime.mk.injEq]
  omega

theorem strftime_ts_inj {t t' : DateTime} (h : t.Valid) (h' : t'.Valid)
    (heq : strftime_ts t = strftime_ts t') : t = t' := by
  apply tsVal_inj h h'
  rw [← ofDigitsAcc_filter_tsChars t h, ← ofDigitsAcc_filter_tsChars t' h']
  have : tsChars t = tsChars t' := congrArg String.data heq
  rw [this]

/-! ### The prompt template (`workout_prompt`, lines 30-38) -/

/-- One segment of a parsed template string: a literal run, or a `{name}` field.
Python's `str.format` (which langchain's `PromptTemplate.format` delegates to)
parses the template once into such segments and substitutes the named values;
substituted values are not re-scanned. -/
inductive Seg where
  | lit (s : String)
  | var (name : String)
deriving DecidableEq, Repr

/-- Substitute the environment `env` into a parsed template. -/
def formatSegs (segs : List Seg) (env : String → String) : String :=
  segs.foldl (fun acc seg => acc ++ match seg with | .lit l => l | .var v => env v) ""

/-- The parsed segments of the `workout_prompt` template literal (lines 32-37):
the four adjacent Python string literals concatenate into one template with
four fields. -/
def workout_prompt_segs : List Seg :=
  [ .lit "Create a personalized workout plan for a ", .var "fitness_level",
    .lit " individual whose goal is ", .var "goal",
    .lit ". The workout should last ", .var "duration",
    .lit " minutes and use ", .var "equipment",
    .lit " equipment. Provide step-by-step exercises with sets, reps, and rest intervals." ]

/-- `workout_prompt.format(fitness_level=…, goal=…, duration=…, equipment=…)`
(lines 42-47).  `duration` is a Python `int`; `{duration}` renders it with
`str`, modelled by `toString`. -/
def workout_prompt_format (fitness_level goal : String) (duration : Int)
    (equipment : String) : String :=
  formatSegs workout_prompt_segs fun v =>
    if v = "fitness_level" then fitness_level
    else if v = "goal" then goal
    else if v = "duration" then toString duration
    else if v = "equipment" then equipment
    else ""

/-! ### The generation client (`generate_workout`, lines 41-53) -/

/-- Outcome of one `model.generate_content(prompt)` call: either a response
whose `.text` is returned, or a raised exception with detail `str(e)`. -/
inductive GenResult where
  | success (text : String)
  | failure (err : String)
deriving DecidableEq, Repr

/-- `generate_workout` (lines 41-53): build the prompt, call the service
inside `try/except`, and on exception return the error string instead of
raising.  The external service is the oracle `gen`. -/
def generate_workout (fitness_level goal : String) (duration : Int)
    (equipment : String) (gen : String → GenResult) : String :=
  let prompt := workout_prompt_format fitness_level goal duration equipment
  match gen prompt with
  | .success text => text
  | .failure e => "An error occurred: " ++ e

/-! ### The document renderer (`create_pdf`, lines 56-73) -/

/-- One drawing operation performed on the FPDF object. -/
inductive PdfOp where
  | addPage
  | setFont (family : String) (size : Nat)
  | cell (w h : Nat) (txt : String) (ln : Bool) (align : String)
  | lnBreak (h : Nat)
  | multiCell (w h : Nat) (txt : String)
deriving DecidableEq, Repr

/-- The FPDF object, modelled as the sequence of operations performed on it. -/
structure PDF where
  ops : List PdfOp
deriving DecidableEq, Repr

def PDF.add_page (p : PDF) : PDF := ⟨p.ops ++ [.addPage]⟩

def PDF.set_font (p : PDF) (family : String) (size : Nat) : PDF :=
  ⟨p.ops ++ [.setFont family size]⟩

def PDF.cell (p : PDF) (w h : Nat) (txt : String) (ln : Bool) (align : String) : PDF :=
  ⟨p.ops ++ [.cell w h txt ln align]⟩

def PDF.ln (p : PDF) (h : Nat) : PDF := ⟨p.ops ++ [.lnBreak h]⟩

def PDF.multi_cell (p : PDF) (w h : Nat) (txt : String) : PDF :=
  ⟨p.ops ++ [.multiCell w h txt]⟩

/-- The text content the document shows, in emission order: the text of every
`cell` and `multi_cell` operation. -/
def textLines (p : PDF) : List String :=
  p.ops.filterMap fun op =>
    match op with
    | .cell _ _ txt _ _ => some txt
    | .multiCell _ _ txt => some txt
    | _ => none

/-- The file name `create_pdf` builds at line 71. -/
def create_pdf_filename (now : DateTime) : String :=
  "Workout_Plan_" ++ strftime_ts now ++ ".pdf"

/-- `create_pdf` (lines 56-73): emit the title cell, a line break, the four
metadata cells, a line break, and the body via `multi_cell`; return the
document together with the timestamped file name it is written to. -/
def create_pdf (workout_plan fitness_level goal : String) (duration : Int)
    (equipment : String) (now : DateTime) : PDF × String :=
  let pdf : PDF := ⟨[]⟩
  let pdf := pdf.add_page
  let pdf := pdf.set_font "Arial" 12
  let pdf := pdf.cell 200 10 "Personalized Workout Plan" true "C"
  let pdf := pdf.ln 10
  let pdf := pdf.cell 200 10 ("Fitness Level: " ++ fitness_level) true ""
  let pdf := pdf.cell 200 10 ("Goal: " ++ goal) true ""
  let pdf := pdf.cell 200 10 ("Duration: " ++ toString duration ++ " minutes") true ""
  let pdf := pdf.cell 200 10 ("Equipment: " ++ equipment) true ""
  let pdf := pdf.ln 10
  let pdf := pdf.multi_cell 0 10 workout_plan
  let filename := create_pdf_filename now
  (pdf, filename)

/-! ### The Streamlit app (`main`, lines 76-147, and module init, lines 13-27) -/

/-- `st.number_input("Duration (minutes)", min_value=10, max_value=120,
value=30, step=5)` (line 107): the widget only ever yields a value inside
`[min_value, max_value]`; a requested value outside the range is not
accepted, so the widget's value stays within the bounds. -/
def st_number_input (min_value max_value value step requested : Int) : Int :=
  let _ := value
  let _ := step
  max min_value (min max_value requested)

/-- One entry of `st.session_state.workout_history` (lines 117-124). -/
structure HistoryEntry where
  plan : String
  fitness_level : String
  goal : String
  duration : Int
  equipment : String
  date : String
deriving DecidableEq, Repr

/-- The per-session mutable state (`st.session_state`). -/
structure SessionState where
  workout_history : List HistoryEntry
deriving DecidableEq, Repr

/-- `st.session_state.workout_history = []` on first use (lines 111-112). -/
def initial_session : SessionState := ⟨[]⟩

/-- Everything one submit produces: the markdown shown inline
(`st.markdown(workout_plan)`, line 128), the updated session state, the
rendered PDF, and the download file name. -/
structure SubmitOutput where
  displayed_plan : String
  state : SessionState
  pdf : PDF
  pdf_filename : String
deriving DecidableEq, Repr

/-- The `if generate_button:` branch of `main` (lines 114-137):
generate the plan, append one history entry, display the plan, render the
PDF and offer it for download.  `now_hist` and `now_pdf` are the two
`datetime.now()` calls (lines 123 and 71). -/
def main_submit (s : SessionState) (fitness_level goal : String) (duration : Int)
    (equipment : String) (gen : String → GenResult)
    (now_hist now_pdf : DateTime) : SubmitOutput :=
  let workout_plan := generate_workout fitness_level goal duration equipment gen
  let entry : HistoryEntry :=
    { plan := workout_plan, fitness_level := fitness_level, goal := goal,
      duration := duration, equipment := equipment, date := strftime_date now_hist }
  let s' : SessionState := ⟨s.workout_history ++ [entry]⟩
  let rendered := create_pdf workout_plan fitness_level goal duration equipment now_pdf
  { displayed_plan := workout_plan, state := s', pdf := rendered.1,
    pdf_filename := rendered.2 }

/-- Module initialisation (lines 13-27): `st.stop()` fires when
`os.getenv("GOOGLE_API_KEY")` is `None` or falsy (the empty string), and
when the Gemini model construction raises (`init_error.isSome`). -/
def startup_halts (google_api_key : Option String) (init_error : Option String) : Bool :=
  match google_api_key with
  | none => true
  | some k => if k = "" then true else init_error.isSome

/-! ### Helper lemmas shared by the claim theorems -/

/-- Unfolding the parsed template: `format` yields the template text with the
four fields replaced by the supplied values. -/
theorem workout_prompt_format_eq (fitness_level goal : String) (duration : Int)
    (equipment : String) :
    workout_prompt_format fitness_level goal duration equipment =
      "Create a personalized workout plan for a " ++ fitness_level
        ++ " individual whose goal is " ++ goal
        ++ ". The workout should last " ++ toString duration
        ++ " minutes and use " ++ equipment
        ++ " equipment. Provide step-by-step exercises with sets, reps, and rest intervals." := by
  simp [workout_prompt_format, formatSegs, workout_prompt_segs, String.empty_append,
    String.append_assoc]

/-- Splitting the error sentinel: the full error string is the sentinel
half-open at the colon followed by the space and the detail. -/
theorem error_sentinel_split (e : String) :
    "An error occurred: " ++ e = "An error occurred:" ++ (" " ++ e) := by
  rw [← String.append_assoc]
  rfl

/-! ### Claim theorems -/

/-- C1: for every input tuple, if the external generation call raises an
exception with detail `e`, `generate_workout` returns a string that begins
with `"An error occurred:"` and contains `e`; being a total function of the
oracle outcome, it lets no exception escape to its caller. -/
theorem generate_workout_error_string (fitness_level goal : String) (duration : Int)
    (equipment : String) (gen : String → GenResult) (e : String)
    (h : gen (workout_prompt_format fitness_level goal duration equipment) = .failure e) :
    generate_workout fitness_level goal duration equipment gen
        = "An error occurred: " ++ e ∧
      (∃ rest, generate_workout fitness_level goal duration equipment gen
        = "An error occurred:" ++ rest) ∧
      ∃ a b, generate_workout fitness_level goal duration equipment gen = a ++ e ++ b := by
  have hmain : generate_workout fitness_level goal duration equipment gen
      = "An error occurred: " ++ e := by
    simp [generate_workout, h]
  refine ⟨hmain, ⟨" " ++ e, ?_⟩, ⟨"An error occurred: ", "", ?_⟩⟩
  · rw [hmain, error_sentinel_split]
  · rw [hmain, String.append_empty]

/-- Witness for C1 at a concrete failing oracle. -/
theorem generate_workout_error_string_witness :
    generate_workout "Beginner" "Weight Loss" 30 "Bodyweight" (fun _ => .failure "quota")
        = "An error occurred: " ++ "quota" ∧
      (∃ rest, generate_workout "Beginner" "Weight Loss" 30 "Bodyweight"
        (fun _ => .failure "quota") = "An error occurred:" ++ rest) ∧
      ∃ a b, generate_workout "Beginner" "Weight Loss" 30 "Bodyweight"
        (fun _ => .failure "quota") = a ++ "quota" ++ b :=
  generate_workout_error_string "Beginner" "Weight Loss" 30 "Bodyweight"
    (fun _ => .failure "quota") "quota" rfl

/-- C2: for every valid input tuple, the built prompt contains the literal
values of all four inputs, in their template positions (each preceded and
followed by the template's fixed context). -/
theorem workout_prompt_contains_inputs (fitness_level goal : String) (duration : Int)
    (equipment : String) :
    ∃ pre₁ pre₂ pre₃ pre₄ suf : List Char,
      (workout_prompt_format fitness_level goal duration equipment).data
        = pre₁ ++ fitness_level.data ++ pre₂ ++ goal.data ++ pre₃
            ++ (toString duration).data ++ pre₄ ++ equipment.data ++ suf := by
  refine ⟨"Create a personalized workout plan for a ".data,
    " individual whose goal is ".data, ". The workout should last ".data,
    " minutes and use ".data,
    " equipment. Provide step-by-step exercises with sets, reps, and rest intervals.".data,
    ?_⟩
  have h := congrArg String.data
    (workout_prompt_format_eq fitness_level goal duration equipment)
  simp only [String.data_append] at h
  simpa using h

/-- C3: the document emitted by `create_pdf` shows, in order, the title line,
the four metadata lines `Fitness Level:`, `Goal:`, `Duration: … minutes`,
`Equipment:` with the input values, and then the full body text; in
particular the inputs (Beginner, Weight Loss, 30, Bodyweight) with body
"Do 10 squats." yield exactly that metadata block followed by the body. -/
theorem create_pdf_document_lines :
    (∀ (workout_plan fitness_level goal : String) (duration : Int)
        (equipment : String) (now : DateTime),
      textLines (create_pdf workout_plan fitness_level goal duration equipment now).1 =
        [ "Personalized Workout Plan",
          "Fitness Level: " ++ fitness_level,
          "Goal: " ++ goal,
          "Duration: " ++ toString duration ++ " minutes",
          "Equipment: " ++ equipment,
          workout_plan ]) ∧
    textLines (create_pdf "Do 10 squats." "Beginner" "Weight Loss" 30 "Bodyweight"
        ⟨2024, 1, 2, 3, 4, 5⟩).1 =
      [ "Personalized Workout Plan",
        "Fitness Level: Beginner",
        "Goal: Weight Loss",
        "Duration: 30 minutes",
        "Equipment: Bodyweight",
        "Do 10 squats." ] :=
  ⟨fun _ _ _ _ _ _ => rfl, rfl⟩

/-- C4: every file name produced by `create_pdf` is
`Workout_Plan_` + 8 digits + `_` + 6 digits + `.pdf` (the 14-digit
`YYYYMMDD_HHMMSS` timestamp), and two calls whose wall-clock times differ
at second resolution (i.e. are at least one second apart) produce distinct
file names. -/
theorem create_pdf_filename_pattern_unique
    (workout_plan fitness_level goal : String) (duration : Int) (equipment : String)
    (workout_plan' fitness_level' goal' : String) (duration' : Int) (equipment' : String)
    (t t' : DateTime) (h : t.Valid) (h' : t'.Valid) :
    (∃ d8 d6 : List Char,
      (∀ c ∈ d8, c.isDigit = true) ∧ (∀ c ∈ d6, c.isDigit = true) ∧
      d8.length = 8 ∧ d6.length = 6 ∧
      (create_pdf workout_plan fitness_level goal duration equipment t).2
        = "Workout_Plan_" ++ ⟨d8⟩ ++ "_" ++ ⟨d6⟩ ++ ".pdf") ∧
    (t ≠ t' →
      (create_pdf workout_plan fitness_level goal duration equipment t).2
        ≠ (create_pdf workout_plan' fitness_level' goal' duration' equipment' t').2) := by
  constructor
  · refine ⟨padNat 4 t.year ++ padNat 2 t.month ++ padNat 2 t.day,
      padNat 2 t.hour ++ padNat 2 t.minute ++ padNat 2 t.second, ?_, ?_, ?_, ?_, ?_⟩
    · intro c hc
      simp only [List.mem_append] at hc
      rcases hc with (hc | hc) | hc
      · exact padNat_all_isDigit 4 _ c hc
      · exact padNat_all_isDigit 2 _ c hc
      · exact padNat_all_isDigit 2 _ c hc
    · intro c hc
      simp only [List.mem_append] at hc
      rcases hc with (hc | hc) | hc
      · exact padNat_all_isDigit 2 _ c hc
      · exact padNat_all_isDigit 2 _ c hc
      · exact padNat_all_isDigit 2 _ c hc
    · simp [padNat_length]
    · simp [padNat_length]
    · apply String.ext
      show (create_pdf_filename t).data = _
      simp only [create_pdf_filename, strftime_ts, String.data_append, tsChars]
      simp
  · intro hne heq
    apply hne
    apply strftime_ts_inj h h'
    have hd : ("Workout_Plan_" ++ strftime_ts t ++ ".pdf").data
        = ("Workout_Plan_" ++ strftime_ts t' ++ ".pdf").data := congrArg String.data heq
    simp only [String.data_append] at hd
    have h1 : "Workout_Plan_".data ++ (strftime_ts t).data
        = "Workout_Plan_".data ++ (strftime_ts t').data := List.append_cancel_right hd
    exact String.ext (List.append_cancel_left h1)

/-- Witness for C4 at two concrete times one second apart. -/
theorem create_pdf_filename_pattern_unique_witness :
    (∃ d8 d6 : List Char,
      (∀ c ∈ d8, c.isDigit = true) ∧ (∀ c ∈ d6, c.isDigit = true) ∧
      d8.length = 8 ∧ d6.length = 6 ∧
      (create_pdf "plan" "Beginner" "Weight Loss" 30 "Bodyweight" ⟨2024, 1, 2, 3, 4, 5⟩).2
        = "Workout_Plan_" ++ ⟨d8⟩ ++ "_" ++ ⟨d6⟩ ++ ".pdf") ∧
    ((⟨2024, 1, 2, 3, 4, 5⟩ : DateTime) ≠ ⟨2024, 1, 2, 3, 4, 6⟩ →
      (create_pdf "plan" "Beginner" "Weight Loss" 30 "Bodyweight" ⟨2024, 1, 2, 3, 4, 5⟩).2
        ≠ (create_pdf "plan" "Beginner" "Weight Loss" 30 "Bodyweight"
            ⟨2024, 1, 2, 3, 4, 6⟩).2) :=
  create_pdf_filename_pattern_unique "plan" "Beginner" "Weight Loss" 30 "Bodyweight"
    "plan" "Beginner" "Weight Loss" 30 "Bodyweight"
    ⟨2024, 1, 2, 3, 4, 5⟩ ⟨2024, 1, 2, 3, 4, 6⟩ (by decide) (by decide)

/-- C5: whatever value is requested of the duration widget, the form's
duration is an integer in `[10, 120]`, and that integer `d` is rendered as
`toString d` in the prompt, in the document's `Duration:` line, and stored
as-is in the history entry of the submission. -/
theorem duration_in_range_and_rendered (requested : Int) (s : SessionState)
    (fitness_level goal equipment : String) (gen : String → GenResult)
    (now_hist now_pdf : DateTime) :
    let d := st_number_input 10 120 30 5 requested
    let out := main_submit s fitness_level goal d equipment gen now_hist now_pdf
    (10 ≤ d ∧ d ≤ 120) ∧
      (∃ a b, workout_prompt_format fitness_level goal d equipment
        = a ++ toString d ++ b) ∧
      (textLines out.pdf).get? 3 = some ("Duration: " ++ toString d ++ " minutes") ∧
      ∃ entry, out.state.workout_history = s.workout_history ++ [entry] ∧
        entry.duration = d := by
  intro d out
  refine ⟨?_, ?_, rfl, ?_⟩
  · show 10 ≤ max 10 (min 120 requested) ∧ max 10 (min 120 requested) ≤ 120
    omega
  · refine ⟨"Create a personalized workout plan for a " ++ fitness_level
      ++ " individual whose goal is " ++ goal ++ ". The workout should last ",
      " minutes and use " ++ equipment
        ++ " equipment. Provide step-by-step exercises with sets, reps, and rest intervals.",
      ?_⟩
    rw [workout_prompt_format_eq]
    simp [String.append_assoc]
  · exact ⟨_, rfl, rfl⟩

/-- C6: one submission appends exactly one entry to the history and leaves
the existing entries unchanged; two submissions starting from the initial
empty session yield a history of length 2 whose entries each retain their
own inputs, timestamp and generated text. -/
theorem workout_history_append (s : SessionState)
    (fl₁ g₁ : String) (du₁ : Int) (eqp₁ : String) (gen₁ : String → GenResult)
    (a₁ b₁ : DateTime)
    (fl₂ g₂ : String) (du₂ : Int) (eqp₂ : String) (gen₂ : String → GenResult)
    (a₂ b₂ : DateTime) :
    (main_submit s fl₁ g₁ du₁ eqp₁ gen₁ a₁ b₁).state.workout_history
        = s.workout_history ++
          [⟨generate_workout fl₁ g₁ du₁ eqp₁ gen₁, fl₁, g₁, du₁, eqp₁,
            strftime_date a₁⟩] ∧
      (main_submit (main_submit initial_session fl₁ g₁ du₁ eqp₁ gen₁ a₁ b₁).state
          fl₂ g₂ du₂ eqp₂ gen₂ a₂ b₂).state.workout_history
        = [⟨generate_workout fl₁ g₁ du₁ eqp₁ gen₁, fl₁, g₁, du₁, eqp₁,
            strftime_date a₁⟩,
           ⟨generate_workout fl₂ g₂ du₂ eqp₂ gen₂, fl₂, g₂, du₂, eqp₂,
            strftime_date a₂⟩] ∧
      (main_submit (main_submit initial_session fl₁ g₁ du₁ eqp₁ gen₁ a₁ b₁).state
          fl₂ g₂ du₂ eqp₂ gen₂ a₂ b₂).state.workout_history.length = 2 :=
  ⟨rfl, rfl, rfl⟩

/-- C7: when the generation call fails with detail `e`, the literal error
string replaces the workout plan text everywhere: in the markdown displayed
inline, in the appended history entry's `plan`, and in the PDF body. -/
theorem error_string_substituted_everywhere (s : SessionState)
    (fitness_level goal : String) (duration : Int) (equipment : String)
    (gen : String → GenResult) (e : String) (now_hist now_pdf : DateTime)
    (h : gen (workout_prompt_format fitness_level goal duration equipment)
      = .failure e) :
    let errStr := "An error occurred: " ++ e
    let out := main_submit s fitness_level goal duration equipment gen now_hist now_pdf
    out.displayed_plan = errStr ∧
      (∃ entry, out.state.workout_history = s.workout_history ++ [entry] ∧
        entry.plan = errStr) ∧
      textLines out.pdf =
        [ "Personalized Workout Plan",
          "Fitness Level: " ++ fitness_level,
          "Goal: " ++ goal,
          "Duration: " ++ toString duration ++ " minutes",
          "Equipment: " ++ equipment,
          errStr ] := by
  intro errStr out
  have hplan : generate_workout fitness_level goal duration equipment gen = errStr := by
    simp [generate_workout, h, errStr]
  refine ⟨?_, ⟨_, rfl, ?_⟩, ?_⟩
  · show generate_workout fitness_level goal duration equipment gen = errStr
    exact hplan
  · show generate_workout fitness_level goal duration equipment gen = errStr
    exact hplan
  · show textLines (create_pdf (generate_workout fitness_level goal duration equipment gen)
        fitness_level goal duration equipment now_pdf).1 = _
    rw [hplan]
    rfl

/-- Witness for C7 at a concrete failing oracle. -/
theorem error_string_substituted_everywhere_witness :
    let errStr := "An error occurred: " ++ "boom"
    let out := main_submit initial_session "Beginner" "Weight Loss" 30 "Bodyweight"
      (fun _ => .failure "boom") ⟨2024, 1, 2, 3, 4, 5⟩ ⟨2024, 1, 2, 3, 4, 5⟩
    out.displayed_plan = errStr ∧
      (∃ entry, out.state.workout_history = initial_session.workout_history ++ [entry] ∧
        entry.plan = errStr) ∧
      textLines out.pdf =
        [ "Personalized Workout Plan",
          "Fitness Level: " ++ "Beginner",
          "Goal: " ++ "Weight Loss",
          "Duration: " ++ toString (30 : Int) ++ " minutes",
          "Equipment: " ++ "Bodyweight",
          errStr ] :=
  error_string_substituted_everywhere initial_session "Beginner" "Weight Loss" 30
    "Bodyweight" (fun _ => .failure "boom") "boom"
    ⟨2024, 1, 2, 3, 4, 5⟩ ⟨2024, 1, 2, 3, 4, 5⟩ rfl

/-- C8: the startup check halts exactly when the credential is missing
(unset or empty) or the model initialisation raises — the one fatal,
before-the-form failure kind — and at request time every submission
completes, its displayed text being either the service's response or the
recovered error string: the only other failure kind, handled by the single
catch-and-display pattern with no retry. -/
theorem failure_kinds_characterised :
    (∀ (google_api_key : Option String) (init_error : Option String),
      startup_halts google_api_key init_error = false ↔
        (∃ k, google_api_key = some k ∧ k ≠ "") ∧ init_error = none) ∧
    (∀ (s : SessionState) (fitness_level goal : String) (duration : Int)
        (equipment : String) (gen : String → GenResult) (now_hist now_pdf : DateTime),
      (∃ t, gen (workout_prompt_format fitness_level goal duration equipment)
          = .success t ∧
        (main_submit s fitness_level goal duration equipment gen
          now_hist now_pdf).displayed_plan = t) ∨
      (∃ e, gen (workout_prompt_format fitness_level goal duration equipment)
          = .failure e ∧
        (main_submit s fitness_level goal duration equipment gen
          now_hist now_pdf).displayed_plan = "An error occurred: " ++ e)) := by
  constructor
  · intro key ie
    match key with
    | none => simp [startup_halts]
    | some k =>
      by_cases hk : k = "" <;> cases ie <;> simp [startup_halts, hk]
  · intro s fl g du eqp gen n₁ n₂
    cases hg : gen (workout_prompt_format fl g du eqp) with
    | success t =>
      left
      exact ⟨t, rfl, by simp [main_submit, generate_workout, hg]⟩
    | failure e =>
      right
      exact ⟨e, rfl, by simp [main_submit, generate_workout, hg]⟩

/-- Witness for C8 at a concrete present credential and a concrete failing
oracle. -/
theorem failure_kinds_characterised_witness :
    (startup_halts (some "key") none = false ↔
      (∃ k, (some "key" : Option String) = some k ∧ k ≠ "") ∧
        (none : Option String) = none) ∧
    ((∃ t, (fun _ : String => GenResult.failure "down")
          (workout_prompt_format "Beginner" "Weight Loss" 30 "Bodyweight")
        = .success t ∧
      (main_submit initial_session "Beginner" "Weight Loss" 30 "Bodyweight"
        (fun _ => .failure "down") ⟨2024, 1, 2, 3, 4, 5⟩
        ⟨2024, 1, 2, 3, 4, 5⟩).displayed_plan = t) ∨
    (∃ e, (fun _ : String => GenResult.failure "down")
          (workout_prompt_format "Beginner" "Weight Loss" 30 "Bodyweight")
        = .failure e ∧
      (main_submit initial_session "Beginner" "Weight Loss" 30 "Bodyweight"
        (fun _ => .failure "down") ⟨2024, 1, 2, 3, 4, 5⟩
        ⟨2024, 1, 2, 3, 4, 5⟩).displayed_plan = "An error occurred: " ++ e)) :=
  ⟨failure_kinds_characterised.1 (some "key") none,
    failure_kinds_characterised.2 initial_session "Beginner" "Weight Loss" 30
      "Bodyweight" (fun _ => .failure "down") ⟨2024, 1, 2, 3, 4, 5⟩ ⟨2024, 1, 2, 3, 4, 5⟩⟩

/-- C9: the prompt builder is a pure function: for each valid input tuple it
yields exactly one string (total, deterministic, no failure case), and the
generation client depends on nothing but that built prompt and the oracle's
answer at it — two runs whose oracles agree on the built prompt return the
same result. -/
theorem workout_prompt_deterministic (fitness_level goal : String) (duration : Int)
    (equipment : String) :
    (∃! p, workout_prompt_format fitness_level goal duration equipment = p) ∧
      ∀ gen₁ gen₂ : String → GenResult,
        gen₁ (workout_prompt_format fitness_level goal duration equipment)
            = gen₂ (workout_prompt_format fitness_level goal duration equipment) →
          generate_workout fitness_level goal duration equipment gen₁
            = generate_workout fitness_level goal duration equipment gen₂ := by
  refine ⟨⟨_, rfl, fun _ hp => hp.symm⟩, fun gen₁ gen₂ hg => ?_⟩
  simp only [generate_workout, hg]

/-- Witness for C9: two different oracles that agree on the built prompt
give the same generation result. -/
theorem workout_prompt_deterministic_witness :
    generate_workout "Beginner" "Weight Loss" 30 "Bodyweight"
        (fun _ => .success "A")
      = generate_workout "Beginner" "Weight Loss" 30 "Bodyweight"
        (fun p => if p = "" then .failure "never" else .success "A") :=
  (workout_prompt_deterministic "Beginner" "Weight Loss" 30 "Bodyweight").2
    (fun _ => .success "A")
    (fun p => if p = "" then .failure "never" else .success "A") (by rfl)

/-- C10: the built prompt is exactly the template text with the four fields
replaced by the string renderings of the inputs. -/
theorem workout_prompt_exact (fitness_level goal : String) (duration : Int)
    (equipment : String) :
    workout_prompt_format fitness_level goal duration equipment =
      "Create a personalized workout plan for a " ++ fitness_level
        ++ " individual whose goal is " ++ goal
        ++ ". The workout should last " ++ toString duration
        ++ " minutes and use " ++ equipment
        ++ " equipment. Provide step-by-step exercises with sets, reps, and rest intervals." :=
  workout_prompt_format_eq fitness_level goal duration equipment

end WorkoutApp
